import Mathlib

/-!
Verification of the translation overlay engine of `django-translations`
(`translations/models.py` and `translations/querysets.py`) against its
natural-language specification.

The Python code is shallowly embedded: model classes become Lean structures,
methods become Lean functions, raised exceptions become an explicit error type,
and the in-place mutation performed by Django querysets is rendered as explicit
state passing (each chaining method returns its clone).  Collaborator code that
lives outside the two embedded modules (the Django ORM base `QuerySet`, the
`Context` reader, the predicate-rewriting query getter) is either modelled from
the spec where the spec fixes its meaning, or universally quantified over, so
the theorems hold for every behaviour of the collaborator.
-/

namespace Translations

/-- A Django model field, restricted to the attributes inspected by
`Translatable.get_translatable_fields` (models.py lines 147-160): the
`isinstance` checks against `CharField`, `TextField` and `EmailField`, and the
`choices` attribute whose Python truthiness is non-emptiness.  `EmailField` is a
subclass of `CharField` in Django, so an email field has `is_char_field = true`
as well. -/
structure Field where
  name : String
  is_char_field : Bool
  is_text_field : Bool
  is_email_field : Bool
  has_choices_attr : Bool
  choices : List (String × String)
  deriving DecidableEq, Repr

/-- The `TranslatableMeta` inner class (models.py lines 125-134): `fields` is
`None` (all text based fields automatically) or an explicit list of names. -/
structure TranslatableMeta where
  fields : Option (List String)
  deriving DecidableEq, Repr

/-- A translatable model class, restricted to what `get_translatable_fields`
consults: the class name (used in the error message), `cls._meta.get_fields()`,
and the `TranslatableMeta` attribute (absent when the class is not a
translatable model, making `hasattr(cls, 'TranslatableMeta')` false). -/
structure ModelCls where
  name : String
  meta_fields : List Field
  translatable_meta : Option TranslatableMeta
  deriving DecidableEq, Repr

/-- The exceptions raised by the embedded code.  `not_translatable_model` is
the bare `Exception('... is not a translatable model.')` of models.py line 167
(the spec taxonomy labels it `ConfigurationError`); `field_does_not_exist` is
Django's `FieldDoesNotExist` raised by `cls._meta.get_field`;
`custom_iteration` is the `TypeError('Translations does not support custom
iteration ...')` of querysets.py line 50 (the spec taxonomy labels it
`UnsupportedOperationError`). -/
inductive TransError where
  | not_translatable_model (cls_name : String)
  | field_does_not_exist (field_name : String)
  | custom_iteration
  deriving DecidableEq, Repr

/-- The condition of the `if` in models.py lines 151-159: the field is a
`CharField` or `TextField`, is not an `EmailField`, and does not have a truthy
`choices` attribute. -/
def auto_translatable (f : Field) : Bool :=
  (f.is_char_field || f.is_text_field) && !f.is_email_field &&
    !(f.has_choices_attr && !f.choices.isEmpty)

/-- `cls._meta.get_field(field_name)`: look the field up by name among the
class fields; `none` models Django raising `FieldDoesNotExist`. -/
def get_field (cls : ModelCls) (field_name : String) : Option Field :=
  cls.meta_fields.find? (fun f => f.name == field_name)

/-- The list comprehension of models.py lines 162-165: resolve each declared
name through `cls._meta.get_field`, propagating `FieldDoesNotExist`. -/
def resolve_fields (cls : ModelCls) : List String → Except TransError (List Field)
  | [] => .ok []
  | n :: ns =>
    match get_field cls n with
    | some f => (resolve_fields cls ns).map (fun fs => f :: fs)
    | none => .error (.field_does_not_exist n)

/-- `Translatable.get_translatable_fields` (models.py lines 136-170): if the
class has no `TranslatableMeta`, raise; if `TranslatableMeta.fields` is `None`,
collect every field passing `auto_translatable`; otherwise resolve the declared
names in order. -/
def get_translatable_fields (cls : ModelCls) : Except TransError (List Field) :=
  match cls.translatable_meta with
  | some tm =>
    match tm.fields with
    | none => .ok (cls.meta_fields.filter auto_translatable)
    | some names => resolve_fields cls names
  | none => .error (.not_translatable_model cls.name)

/-- A row of the `Translation` model (models.py lines 52-80).  `content_object`
is a `GenericForeignKey`, not a database column, and is omitted; the foreign
key `content_type` is its stored id. -/
structure Translation where
  content_type : Nat
  object_id : String
  field : String
  language : String
  text : String
  deriving DecidableEq, Repr

/-- The database columns of the `Translation` model, in declaration order. -/
def translation_columns : List String :=
  ["content_type", "object_id", "field", "language", "text"]

/-- `Translation.Meta.unique_together` (models.py line 90). -/
def unique_together : List String :=
  ["content_type", "object_id", "field", "language"]

/-- The address of a translation row: the projection onto the four columns of
the composite uniqueness constraint. -/
def address (t : Translation) : Nat × String × String × String :=
  (t.content_type, t.object_id, t.field, t.language)

/-- A stored table state satisfies the `unique_together` constraint: no two
rows share an address. -/
def distinct_addresses : List Translation → Bool
  | [] => true
  | t :: ts => ts.all (fun u => address u != address t) && distinct_addresses ts

/-- `self._iterable_class` of the Django queryset: `ModelIterable` is the
default; `values()` and `values_list()` switch it to the other iterables. -/
inductive IterableClass where
  | model_iterable
  | values_iterable
  | values_list_iterable
  | flat_values_list_iterable
  deriving DecidableEq, Repr

/-- One call recorded on the underlying Django query: `super().filter(...)` or
`super().exclude(...)` with its (already combined) predicate argument. -/
inductive QueryOp (π : Type) where
  | filter_q (p : π)
  | exclude_q (p : π)
  deriving DecidableEq, Repr

/-- Accesses to the relational store made while evaluating a queryset:
`entity_fetch` is the execution of the base query inside Django's
`QuerySet._fetch_all` (filling `self._result_cache`); `overlay_read` is the
read of the `Translation` table performed by `Context(...).read(lang)`
(querysets.py lines 57-59). -/
inductive StoreAccess where
  | entity_fetch
  | overlay_read
  deriving DecidableEq, Repr

/-- `TranslatableQuerySet` (querysets.py lines 13-100), shallowly embedded.
`π` is the type of filter/exclude predicate arguments, `ε` the type of model
instances held in the result cache.  `query` is the underlying Django query
(the accumulated filter/exclude calls); `result_cache` is
`self._result_cache`; the four `trans_` attributes are those set by
`__init__` (querysets.py lines 16-22). -/
structure TranslatableQuerySet (π ε : Type) where
  model : ModelCls
  query : List (QueryOp π)
  iterable_class : IterableClass
  result_cache : Option (List ε)
  trans_lang : Option String
  trans_rels : List (Option String)
  trans_cipher : Bool
  trans_cache : Bool
  deriving DecidableEq, Repr

namespace TranslatableQuerySet

variable {π ε : Type}

/-- A freshly constructed queryset: `__init__` (querysets.py lines 16-22) on
top of Django's defaults (empty query, `ModelIterable`, no result cache). -/
def init (m : ModelCls) : TranslatableQuerySet π ε :=
  { model := m
    query := []
    iterable_class := .model_iterable
    result_cache := none
    trans_lang := none
    trans_rels := []
    trans_cipher := true
    trans_cache := false }

/-- `_chain` (querysets.py lines 24-36): Django's `_chain` yields an
unevaluated clone of the same query (result cache cleared); the override
copies `_trans_lang`, `_trans_rels` and `_trans_cipher` from the receiver and
resets `_trans_cache` to `False`. -/
def chain (qs : TranslatableQuerySet π ε) : TranslatableQuerySet π ε :=
  { qs with result_cache := none, trans_cache := false }

/-- Django's `QuerySet.all()`, which returns `self._chain()`; every chaining
method of querysets.py starts with `clone = self.all()`. -/
def all (qs : TranslatableQuerySet π ε) : TranslatableQuerySet π ε :=
  chain qs

/-- `_translate_mode` (querysets.py lines 38-40). -/
def translate_mode (qs : TranslatableQuerySet π ε) : Bool :=
  qs.trans_lang.isSome && qs.trans_cipher

/-- Modelled from the spec: `_get_standard_language` lives in
`translations.utils`, which is not among the embedded sources.  Per the spec
(section 6), the locale provider "supplies the default language when none is
explicitly requested" and the core treats languages as opaque strings, so the
call standardises `None` to the process-wide current language and passes an
explicit language through. -/
def get_standard_language (current_language : String) (lang : Option String) : String :=
  lang.getD current_language

/-- `apply` (querysets.py lines 62-66): chain a clone and set its
`_trans_lang` to the standardised language. -/
def apply (current_language : String) (qs : TranslatableQuerySet π ε)
    (lang : Option String) : TranslatableQuerySet π ε :=
  { all qs with trans_lang := some (get_standard_language current_language lang) }

/-- `translate_related` (querysets.py lines 68-72): chain a clone and set its
`_trans_rels`, normalising the single argument `None` to the empty tuple. -/
def translate_related (qs : TranslatableQuerySet π ε)
    (fields : List (Option String)) : TranslatableQuerySet π ε :=
  { all qs with trans_rels := if fields = [none] then [] else fields }

/-- `cipher` (querysets.py lines 74-78): chain a clone with
`_trans_cipher = True`. -/
def cipher (qs : TranslatableQuerySet π ε) : TranslatableQuerySet π ε :=
  { all qs with trans_cipher := true }

/-- `decipher` (querysets.py lines 80-84): chain a clone with
`_trans_cipher = False`. -/
def decipher (qs : TranslatableQuerySet π ε) : TranslatableQuerySet π ε :=
  { all qs with trans_cipher := false }

/-- Django's `QuerySet.filter`: chain a clone and record the predicate on the
underlying query. -/
def super_filter (qs : TranslatableQuerySet π ε) (p : π) : TranslatableQuerySet π ε :=
  { chain qs with query := qs.query ++ [.filter_q p] }

/-- Django's `QuerySet.exclude`: chain a clone and record the negated
predicate on the underlying query. -/
def super_exclude (qs : TranslatableQuerySet π ε) (p : π) : TranslatableQuerySet π ε :=
  { chain qs with query := qs.query ++ [.exclude_q p] }

/-- `filter` (querysets.py lines 86-92).  `getter` models
`_fetch_translations_query_getter` of `translations.query` (not among the
embedded sources): in translate mode the arguments are rewritten by
`getter(self.model, self._trans_lang)` before being handed to the native
filter; otherwise they are passed through unchanged. -/
def filter (getter : ModelCls → Option String → π → π)
    (qs : TranslatableQuerySet π ε) (p : π) : TranslatableQuerySet π ε :=
  if qs.translate_mode then super_filter qs (getter qs.model qs.trans_lang p)
  else super_filter qs p

/-- `exclude` (querysets.py lines 94-100), mirror image of `filter`. -/
def exclude (getter : ModelCls → Option String → π → π)
    (qs : TranslatableQuerySet π ε) (p : π) : TranslatableQuerySet π ε :=
  if qs.translate_mode then super_exclude qs (getter qs.model qs.trans_lang p)
  else super_exclude qs p

/-- Django's `QuerySet._fetch_all`: when the result cache is empty, execute
the base query against the entity store (one `entity_fetch` access, result
`db`) and fill the cache; otherwise do nothing. -/
def super_fetch_all (db : List ε) (qs : TranslatableQuerySet π ε) :
    List StoreAccess × TranslatableQuerySet π ε :=
  match qs.result_cache with
  | some _ => ([], qs)
  | none => ([.entity_fetch], { qs with result_cache := some db })

/-- The translation step of `_fetch_all` (querysets.py lines 46-60), run after
the base fetch: return unchanged when not in translate mode; raise the custom
iteration `TypeError` when the iterable class is not `ModelIterable`; when the
translation cache flag is unset, read the overlay store once
(`Context(self._result_cache, *self._trans_rels).read(self._trans_lang)`,
modelled by the collaborator function `context_read` rewriting the cached
instances) and set the flag. -/
def read_translations
    (context_read : List (Option String) → String → List ε → List ε)
    (q : TranslatableQuerySet π ε) :
    List StoreAccess × Except TransError (TranslatableQuerySet π ε) :=
  if q.translate_mode then
    if q.iterable_class = IterableClass.model_iterable then
      if q.trans_cache then ([], .ok q)
      else
        match q.trans_lang with
        | some l =>
          ([.overlay_read],
            .ok { q with
                  result_cache := q.result_cache.map (context_read q.trans_rels l)
                  trans_cache := true })
        | none => ([], .ok q)
    else ([], .error .custom_iteration)
  else ([], .ok q)

/-- `_fetch_all` (querysets.py lines 42-60): first `super()._fetch_all()`
(base query execution), then the translation step.  The returned list is the
trace of store accesses, in order. -/
def fetch_all (db : List ε)
    (context_read : List (Option String) → String → List ε → List ε)
    (qs : TranslatableQuerySet π ε) :
    List StoreAccess × Except TransError (TranslatableQuerySet π ε) :=
  let p := super_fetch_all db qs
  let r := read_translations context_read p.2
  (p.1 ++ r.1, r.2)

/-- A chaining call other than `apply`: the queryset-returning methods of
querysets.py and of the Django base class that a caller can interleave without
ever applying a language. -/
inductive ChainOp (π : Type) where
  | all_op
  | cipher_op
  | decipher_op
  | translate_related_op (fields : List (Option String))
  | filter_op (p : π)
  | exclude_op (p : π)
  deriving DecidableEq, Repr

/-- Run one non-apply chaining call. -/
def run_op (getter : ModelCls → Option String → π → π)
    (qs : TranslatableQuerySet π ε) : ChainOp π → TranslatableQuerySet π ε
  | .all_op => all qs
  | .cipher_op => cipher qs
  | .decipher_op => decipher qs
  | .translate_related_op fields => translate_related qs fields
  | .filter_op p => filter getter qs p
  | .exclude_op p => exclude getter qs p

/-- Run a sequence of non-apply chaining calls, left to right. -/
def run_ops (getter : ModelCls → Option String → π → π)
    (qs : TranslatableQuerySet π ε) : List (ChainOp π) → TranslatableQuerySet π ε
  | [] => qs
  | op :: ops => run_ops getter (run_op getter qs op) ops

end TranslatableQuerySet

/-! Concrete instances used by counterexamples and witnesses.  Querysets are
instantiated at predicate type `String` and instance type `Nat` (an instance
id standing for the in-memory model object). -/

/-- A character field with an empty `choices` attribute. -/
def title_field_ex : Field :=
  { name := "title", is_char_field := true, is_text_field := false,
    is_email_field := false, has_choices_attr := true, choices := [] }

/-- A text field. -/
def body_field_ex : Field :=
  { name := "body", is_char_field := false, is_text_field := true,
    is_email_field := false, has_choices_attr := true, choices := [] }

/-- A character field restricted to a fixed choices enumeration. -/
def status_field_ex : Field :=
  { name := "status", is_char_field := true, is_text_field := false,
    is_email_field := false, has_choices_attr := true,
    choices := [("d", "Draft"), ("p", "Published")] }

/-- A non-text field (e.g. an integer column). -/
def views_field_ex : Field :=
  { name := "views", is_char_field := false, is_text_field := false,
    is_email_field := false, has_choices_attr := true, choices := [] }

/-- An email field with no choices: in Django an `EmailField` is a
`CharField`, so `is_char_field` is true as well. -/
def email_field_ex : Field :=
  { name := "email", is_char_field := true, is_text_field := false,
    is_email_field := true, has_choices_attr := true, choices := [] }

/-- A translatable model relying on the automatic default
(`TranslatableMeta.fields = None`) whose fields include an email field. -/
def email_model : ModelCls :=
  { name := "Profile", meta_fields := [title_field_ex, email_field_ex],
    translatable_meta := some { fields := none } }

/-- A translatable model relying on the automatic default, with a mix of
plain text, choices-restricted and non-text fields. -/
def default_model : ModelCls :=
  { name := "Post",
    meta_fields := [title_field_ex, status_field_ex, body_field_ex, views_field_ex],
    translatable_meta := some { fields := none } }

/-- A translatable model with an explicit `TranslatableMeta.fields` list. -/
def declared_model : ModelCls :=
  { name := "Doc", meta_fields := [title_field_ex, body_field_ex],
    translatable_meta := some { fields := some ["body"] } }

/-- A class without the `TranslatableMeta` attribute. -/
def plain_model : ModelCls :=
  { name := "Plain", meta_fields := [title_field_ex], translatable_meta := none }

/-- The free-text-minus-choices field collection that the specification
describes for the automatic default, with no further exclusion. -/
def free_text_no_choices (f : Field) : Bool :=
  (f.is_char_field || f.is_text_field) && !(f.has_choices_attr && !f.choices.isEmpty)

/-- A stored overlay table with two translations of the same field in two
languages. -/
def translations_db_ex : List Translation :=
  [{ content_type := 1, object_id := "1", field := "title", language := "de",
     text := "Hallo" },
   { content_type := 1, object_id := "1", field := "title", language := "fr",
     text := "Salut" }]

/-- A concrete predicate-rewriting getter (collaborator stand-in). -/
def getter_ex : ModelCls → Option String → String → String :=
  fun _ lang p => "translations__" ++ lang.getD "" ++ "__" ++ p

/-- A concrete `Context.read` collaborator stand-in that replaces every cached
instance by its successor (so re-running it is observable). -/
def read_incr : List (Option String) → String → List Nat → List Nat :=
  fun _ _ xs => xs.map (fun x => x + 1)

/-- A freshly constructed queryset over `default_model`. -/
def base_qs : TranslatableQuerySet String Nat :=
  TranslatableQuerySet.init default_model

/-- `base_qs` with a language applied: `apply('de')` under current language
`'en'`. -/
def applied_qs : TranslatableQuerySet String Nat :=
  TranslatableQuerySet.apply "en" base_qs (some "de")

/-- `applied_qs` switched to a values iterable, as `values()` would leave it:
translate mode with a custom iterable class. -/
def values_qs : TranslatableQuerySet String Nat :=
  { applied_qs with iterable_class := .values_iterable }

/-- The queryset state after evaluating `applied_qs` once against an entity
store returning instance 7, with `read_incr` as the overlay reader. -/
def translated_qs : TranslatableQuerySet String Nat :=
  { applied_qs with result_cache := some [8], trans_cache := true }

/-- A materialized (already evaluated) queryset in translate mode. -/
def evaluated_qs : TranslatableQuerySet String Nat :=
  { applied_qs with result_cache := some [7], trans_cache := true }

/-! Helper lemmas. -/

lemma countP_address_eq_zero {ts : List Translation} {t : Translation}
    (h : ts.all (fun u => address u != address t) = true) :
    ts.countP (fun u => address u == address t) = 0 := by
  rw [List.countP_eq_zero]
  intro u hu
  have := (List.all_eq_true.mp h) u hu
  simpa using this

lemma countP_le_one_of_distinct (db : List Translation)
    (h : distinct_addresses db = true) (a : Nat × String × String × String) :
    db.countP (fun t => address t == a) ≤ 1 := by
  induction db with
  | nil => simp [List.countP_nil]
  | cons t ts ih =>
    rw [distinct_addresses, Bool.and_eq_true] at h
    rw [List.countP_cons]
    by_cases ha : address t = a
    · subst ha
      have hz := countP_address_eq_zero h.1
      simp [hz]
    · have : (address t == a) = false := by simpa using ha
      simp [this, ih h.2]

lemma run_op_preserves_trans_lang {π ε : Type}
    (getter : ModelCls → Option String → π → π)
    (qs : TranslatableQuerySet π ε) (op : TranslatableQuerySet.ChainOp π) :
    (TranslatableQuerySet.run_op getter qs op).trans_lang = qs.trans_lang := by
  cases op with
  | all_op => rfl
  | cipher_op => rfl
  | decipher_op => rfl
  | translate_related_op fields => rfl
  | filter_op p =>
    by_cases hm : qs.translate_mode <;>
      simp [TranslatableQuerySet.run_op, TranslatableQuerySet.filter, hm,
        TranslatableQuerySet.super_filter, TranslatableQuerySet.chain]
  | exclude_op p =>
    by_cases hm : qs.translate_mode <;>
      simp [TranslatableQuerySet.run_op, TranslatableQuerySet.exclude, hm,
        TranslatableQuerySet.super_exclude, TranslatableQuerySet.chain]

lemma run_op_preserves_trans_cipher {π ε : Type}
    (getter : ModelCls → Option String → π → π)
    (qs : TranslatableQuerySet π ε) (op : TranslatableQuerySet.ChainOp π)
    (hop : op ≠ .cipher_op ∧ op ≠ .decipher_op) :
    (TranslatableQuerySet.run_op getter qs op).trans_cipher = qs.trans_cipher := by
  cases op with
  | all_op => rfl
  | cipher_op => exact absurd rfl hop.1
  | decipher_op => exact absurd rfl hop.2
  | translate_related_op fields => rfl
  | filter_op p =>
    by_cases hm : qs.translate_mode <;>
      simp [TranslatableQuerySet.run_op, TranslatableQuerySet.filter, hm,
        TranslatableQuerySet.super_filter, TranslatableQuerySet.chain]
  | exclude_op p =>
    by_cases hm : qs.translate_mode <;>
      simp [TranslatableQuerySet.run_op, TranslatableQuerySet.exclude, hm,
        TranslatableQuerySet.super_exclude, TranslatableQuerySet.chain]

lemma run_ops_preserves_trans_lang {π ε : Type}
    (getter : ModelCls → Option String → π → π)
    (qs : TranslatableQuerySet π ε) (ops : List (TranslatableQuerySet.ChainOp π)) :
    (TranslatableQuerySet.run_ops getter qs ops).trans_lang = qs.trans_lang := by
  induction ops generalizing qs with
  | nil => rfl
  | cons op ops ih =>
    rw [TranslatableQuerySet.run_ops, ih, run_op_preserves_trans_lang]

lemma auto_translatable_iff (f : Field) :
    auto_translatable f = true ↔
      (f.is_char_field = true ∨ f.is_text_field = true) ∧
        f.is_email_field = false ∧
        ¬(f.has_choices_attr = true ∧ f.choices ≠ []) := by
  obtain ⟨n, c, t, e, h, ch⟩ := f
  simp only [auto_translatable]
  cases c <;> cases t <;> cases e <;> cases h <;> cases ch <;>
    simp [List.isEmpty_iff]

/-- C2: when translation rewriting is toggled off — no language has been
applied (`_trans_lang is None`) or use-base-values mode is active
(`_trans_cipher` false) — `filter` and `exclude` produce exactly the query of
the native base-table filter and exclude: the predicate is passed through
unchanged, for every rewriting getter. -/
theorem filter_exclude_passthrough_when_not_translating {π ε : Type}
    (getter : ModelCls → Option String → π → π)
    (qs : TranslatableQuerySet π ε) (p : π)
    (h : qs.trans_lang = none ∨ qs.trans_cipher = false) :
    TranslatableQuerySet.filter getter qs p = TranslatableQuerySet.super_filter qs p ∧
    TranslatableQuerySet.exclude getter qs p = TranslatableQuerySet.super_exclude qs p := by
  have hm : qs.translate_mode = false := by
    rcases h with h | h <;> simp [TranslatableQuerySet.translate_mode, h]
  constructor <;>
    simp [TranslatableQuerySet.filter, TranslatableQuerySet.exclude, hm]

/-- Witness for C2 at a concrete fresh queryset and predicate. -/
theorem filter_exclude_passthrough_when_not_translating_witness :
    (base_qs.trans_lang = none ∨ base_qs.trans_cipher = false) ∧
    TranslatableQuerySet.filter getter_ex base_qs "title__icontains=Bon"
      = TranslatableQuerySet.super_filter base_qs "title__icontains=Bon" ∧
    TranslatableQuerySet.exclude getter_ex base_qs "title__icontains=Bon"
      = TranslatableQuerySet.super_exclude base_qs "title__icontains=Bon" :=
  ⟨Or.inl rfl,
    filter_exclude_passthrough_when_not_translating getter_ex base_qs
      "title__icontains=Bon" (Or.inl rfl)⟩

/-- C5: a class with no `TranslatableMeta` attribute makes
`get_translatable_fields` raise (the bare `Exception` of models.py line 167,
the error the spec taxonomy calls `ConfigurationError`). -/
theorem get_translatable_fields_raises_without_meta (cls : ModelCls)
    (h : cls.translatable_meta = none) :
    get_translatable_fields cls = .error (.not_translatable_model cls.name) := by
  simp [get_translatable_fields, h]

/-- Witness for C5 at a concrete class without the attribute. -/
theorem get_translatable_fields_raises_without_meta_witness :
    plain_model.translatable_meta = none ∧
    get_translatable_fields plain_model
      = .error (.not_translatable_model "Plain") :=
  ⟨rfl, get_translatable_fields_raises_without_meta plain_model rfl⟩

/-- C7: the overlay table stores rows with columns
`(content_type, object_id, field, language, text)` — the spec's
`(entity_type, entity_id, field, language, text)` — its `unique_together`
constraint covers exactly the first four of them, and any stored state
satisfying the constraint has at most one overlay record per address. -/
theorem translation_table_unique_per_address :
    unique_together = translation_columns.take 4 ∧
    ∀ db : List Translation, distinct_addresses db = true →
      ∀ a : Nat × String × String × String,
        db.countP (fun t => address t == a) ≤ 1 :=
  ⟨rfl, countP_le_one_of_distinct⟩

/-- Witness for C7 at a concrete two-row table and one concrete address. -/
theorem translation_table_unique_per_address_witness :
    distinct_addresses translations_db_ex = true ∧
    translations_db_ex.countP
        (fun t => address t == (1, "1", "title", "de")) ≤ 1 :=
  ⟨by decide,
    translation_table_unique_per_address.2 translations_db_ex (by decide)
      (1, "1", "title", "de")⟩

/-- C9: each chaining call returns a queryset whose translation configuration
is rebuilt from the receiver's — the one touched setting updated, the others
copied by `_chain`, and the translation cache flag reset.  The receiver is
never mutated: in this embedding every method returns its clone and the
receiver value is untouched by construction. -/
theorem chaining_rebuilds_configuration {π ε : Type} (cur : String)
    (qs : TranslatableQuerySet π ε) (lang : Option String)
    (fields : List (Option String)) :
    ((TranslatableQuerySet.apply cur qs lang).trans_lang
        = some (TranslatableQuerySet.get_standard_language cur lang) ∧
      (TranslatableQuerySet.apply cur qs lang).trans_rels = qs.trans_rels ∧
      (TranslatableQuerySet.apply cur qs lang).trans_cipher = qs.trans_cipher ∧
      (TranslatableQuerySet.apply cur qs lang).trans_cache = false) ∧
    ((TranslatableQuerySet.translate_related qs fields).trans_rels
        = (if fields = [none] then [] else fields) ∧
      (TranslatableQuerySet.translate_related qs fields).trans_lang = qs.trans_lang ∧
      (TranslatableQuerySet.translate_related qs fields).trans_cipher = qs.trans_cipher ∧
      (TranslatableQuerySet.translate_related qs fields).trans_cache = false) ∧
    ((TranslatableQuerySet.cipher qs).trans_cipher = true ∧
      (TranslatableQuerySet.cipher qs).trans_lang = qs.trans_lang ∧
      (TranslatableQuerySet.cipher qs).trans_rels = qs.trans_rels ∧
      (TranslatableQuerySet.cipher qs).trans_cache = false) ∧
    ((TranslatableQuerySet.decipher qs).trans_cipher = false ∧
      (TranslatableQuerySet.decipher qs).trans_lang = qs.trans_lang ∧
      (TranslatableQuerySet.decipher qs).trans_rels = qs.trans_rels ∧
      (TranslatableQuerySet.decipher qs).trans_cache = false) :=
  ⟨⟨rfl, rfl, rfl, rfl⟩, ⟨rfl, rfl, rfl, rfl⟩, ⟨rfl, rfl, rfl, rfl⟩,
    ⟨rfl, rfl, rfl, rfl⟩⟩

/-- C10: translate mode holds exactly when a language has been applied and
cipher is on; a fresh queryset has no language and cipher on; `cipher()` on a
fresh queryset is a no-op; no sequence of non-apply chaining calls ever
enables translate mode; `apply` alone enables it. -/
theorem translate_mode_characterisation {π ε : Type} (m : ModelCls) :
    (∀ qs : TranslatableQuerySet π ε,
        qs.translate_mode = true ↔ qs.trans_lang ≠ none ∧ qs.trans_cipher = true) ∧
    (TranslatableQuerySet.init m : TranslatableQuerySet π ε).trans_lang = none ∧
    (TranslatableQuerySet.init m : TranslatableQuerySet π ε).trans_cipher = true ∧
    TranslatableQuerySet.cipher (TranslatableQuerySet.init m : TranslatableQuerySet π ε)
      = TranslatableQuerySet.init m ∧
    (∀ (getter : ModelCls → Option String → π → π)
        (ops : List (TranslatableQuerySet.ChainOp π)),
      (TranslatableQuerySet.run_ops getter
          (TranslatableQuerySet.init m : TranslatableQuerySet π ε) ops).translate_mode
        = false) ∧
    (∀ (cur : String) (lang : Option String),
      (TranslatableQuerySet.apply cur
          (TranslatableQuerySet.init m : TranslatableQuerySet π ε) lang).translate_mode
        = true) := by
  refine ⟨?_, rfl, rfl, rfl, ?_, ?_⟩
  · intro qs
    simp [TranslatableQuerySet.translate_mode, Option.isSome_iff_ne_none]
  · intro getter ops
    have h : (TranslatableQuerySet.run_ops getter
        (TranslatableQuerySet.init m : TranslatableQuerySet π ε) ops).trans_lang = none :=
      run_ops_preserves_trans_lang getter _ ops
    simp [TranslatableQuerySet.translate_mode, h]
  · intro cur lang
    simp [TranslatableQuerySet.translate_mode, TranslatableQuerySet.apply,
      TranslatableQuerySet.all, TranslatableQuerySet.chain, TranslatableQuerySet.init]

/-- C6 counterexample: on a materialized translate-mode queryset, `decipher()`
does not fail — it returns a fresh, fully usable clone (evaluating it
succeeds and yields the base rows).  No code path of `cipher`, `decipher` or
`_chain` raises. -/
theorem mode_switch_after_evaluation_succeeds_counterexample :
    evaluated_qs.result_cache = some [7] ∧
    TranslatableQuerySet.decipher evaluated_qs
      = { evaluated_qs with
          result_cache := none, trans_cache := false, trans_cipher := false } ∧
    (TranslatableQuerySet.fetch_all [7] read_incr
        (TranslatableQuerySet.decipher evaluated_qs)).2
      = .ok { evaluated_qs with
              result_cache := some [7], trans_cache := false,
              trans_cipher := false } :=
  ⟨rfl, rfl, rfl⟩

/-- C6 amended: switching between cipher and decipher on a materialized
queryset is not an error; each returns a clone with the result cache and the
translation cache flag cleared (so it re-evaluates under the new mode) and the
other settings copied. -/
theorem mode_switch_after_evaluation_chains {π ε : Type}
    (qs : TranslatableQuerySet π ε) (rows : List ε)
    (h : qs.result_cache = some rows) :
    TranslatableQuerySet.cipher qs
      = { qs with result_cache := none, trans_cache := false, trans_cipher := true } ∧
    TranslatableQuerySet.decipher qs
      = { qs with result_cache := none, trans_cache := false, trans_cipher := false } :=
  ⟨rfl, rfl⟩

/-- Witness for the amended C6 at a concrete materialized queryset. -/
theorem mode_switch_after_evaluation_chains_witness :
    evaluated_qs.result_cache = some [7] ∧
    TranslatableQuerySet.cipher evaluated_qs
      = { evaluated_qs with
          result_cache := none, trans_cache := false, trans_cipher := true } ∧
    TranslatableQuerySet.decipher evaluated_qs
      = { evaluated_qs with
          result_cache := none, trans_cache := false, trans_cipher := false } :=
  ⟨rfl, mode_switch_after_evaluation_chains evaluated_qs [7] rfl⟩

/-- C1 counterexample: for a model using the automatic default, the code also
excludes email fields.  `email_model` has an email field (a character field
with no choices, hence free text in the claim's sense); the claim predicts it
among the translatable fields, but `get_translatable_fields` omits it. -/
theorem auto_fields_exclude_email_counterexample :
    email_model.translatable_meta = some { fields := none } ∧
    email_model.meta_fields.filter free_text_no_choices
      = [title_field_ex, email_field_ex] ∧
    get_translatable_fields email_model = .ok [title_field_ex] ∧
    get_translatable_fields email_model
      ≠ .ok (email_model.meta_fields.filter free_text_no_choices) :=
  ⟨rfl, rfl, rfl, by
    rw [show get_translatable_fields email_model = .ok [title_field_ex] from rfl,
      show email_model.meta_fields.filter free_text_no_choices
        = [title_field_ex, email_field_ex] from rfl]
    simp⟩

/-- C1 amended: with `TranslatableMeta.fields = None`,
`get_translatable_fields` returns exactly the character and text fields minus
email fields and minus any field with a non-empty choices enumeration, in
field-declaration order (a sublist of the class fields). -/
theorem auto_translatable_fields_characterisation (cls : ModelCls)
    (fs : List Field)
    (hmeta : cls.translatable_meta = some { fields := none })
    (hok : get_translatable_fields cls = .ok fs) :
    fs.Sublist cls.meta_fields ∧
    ∀ f : Field, f ∈ fs ↔
      f ∈ cls.meta_fields ∧
        (f.is_char_field = true ∨ f.is_text_field = true) ∧
        f.is_email_field = false ∧
        ¬(f.has_choices_attr = true ∧ f.choices ≠ []) := by
  have hfs : fs = cls.meta_fields.filter auto_translatable := by
    simp [get_translatable_fields, hmeta] at hok
    exact hok.symm
  subst hfs
  refine ⟨List.filter_sublist _, ?_⟩
  intro f
  rw [List.mem_filter, auto_translatable_iff]

/-- Witness for the amended C1 at a concrete model mixing plain text,
choices-restricted, email-free and non-text fields. -/
theorem auto_translatable_fields_characterisation_witness :
    default_model.translatable_meta = some { fields := none } ∧
    get_translatable_fields default_model = .ok [title_field_ex, body_field_ex] ∧
    ([title_field_ex, body_field_ex].Sublist default_model.meta_fields ∧
      ∀ f : Field, f ∈ [title_field_ex, body_field_ex] ↔
        f ∈ default_model.meta_fields ∧
          (f.is_char_field = true ∨ f.is_text_field = true) ∧
          f.is_email_field = false ∧
          ¬(f.has_choices_attr = true ∧ f.choices ≠ [])) :=
  ⟨rfl, rfl,
    auto_translatable_fields_characterisation default_model
      [title_field_ex, body_field_ex] rfl rfl⟩

lemma resolve_fields_ok_iff (cls : ModelCls) (names : List String)
    (fs : List Field) :
    resolve_fields cls names = .ok fs ↔
      List.Forall₂ (fun n f => get_field cls n = some f) names fs := by
  induction names generalizing fs with
  | nil =>
    simp only [resolve_fields, List.forall₂_nil_left_iff]
    constructor
    · intro h
      cases h
      rfl
    · intro h
      rw [h]
  | cons n ns ih =>
    cases hg : get_field cls n with
    | none =>
      simp only [resolve_fields, hg, List.forall₂_cons_left_iff]
      constructor
      · intro h
        exact Except.noConfusion h
      · rintro ⟨b, u, hb, -, -⟩
        exact Option.noConfusion hb
    | some f =>
      simp only [resolve_fields, hg, List.forall₂_cons_left_iff]
      cases hr : resolve_fields cls ns with
      | error e =>
        constructor
        · intro h
          simp [Except.map] at h
        · rintro ⟨b, u, -, hu, -⟩
          rw [← ih u] at hu
          rw [hr] at hu
          exact Except.noConfusion hu
      | ok fs' =>
        constructor
        · intro h
          simp only [Except.map] at h
          cases h
          exact ⟨f, fs', rfl, (ih fs').mp hr, rfl⟩
        · rintro ⟨b, u, hb, hu, rfl⟩
          injection hb with hfb
          subst hfb
          rw [← ih u] at hu
          rw [hr] at hu
          injection hu with hfu
          subst hfu
          simp [Except.map]

/-- C8: with an explicit `TranslatableMeta.fields` list, the translatable
fields are exactly the fields resolved from the declared names, in declaration
order (captured by `List.Forall₂` pairing each name with its resolved field);
in particular an empty declaration yields no translatable fields. -/
theorem declared_translatable_fields (cls : ModelCls) (names : List String)
    (fs : List Field)
    (hmeta : cls.translatable_meta = some { fields := some names }) :
    (get_translatable_fields cls = .ok fs ↔
      List.Forall₂ (fun n f => get_field cls n = some f) names fs) ∧
    (names = [] → get_translatable_fields cls = .ok []) := by
  have hunfold : get_translatable_fields cls = resolve_fields cls names := by
    simp [get_translatable_fields, hmeta]
  constructor
  · rw [hunfold]
    exact resolve_fields_ok_iff cls names fs
  · intro hnil
    subst hnil
    rw [hunfold]
    rfl

/-- Witness for C8 at a concrete model declaring a single field. -/
theorem declared_translatable_fields_witness :
    declared_model.translatable_meta = some { fields := some ["body"] } ∧
    ((get_translatable_fields declared_model = .ok [body_field_ex] ↔
        List.Forall₂ (fun n f => get_field declared_model n = some f)
          ["body"] [body_field_ex]) ∧
      (["body"] = [] → get_translatable_fields declared_model = .ok [])) :=
  ⟨rfl, declared_translatable_fields declared_model ["body"] [body_field_ex] rfl⟩

/-- C3 counterexample: a translate-mode queryset with a values iterable fails
with the custom-iteration error, but only after the base query has executed —
the store-access trace records an entity fetch before the failure surfaces, so
the failure is not surfaced before any store access is attempted. -/
theorem custom_iteration_after_entity_fetch_counterexample :
    values_qs.translate_mode = true ∧
    values_qs.iterable_class ≠ IterableClass.model_iterable ∧
    TranslatableQuerySet.fetch_all [7] read_incr values_qs
      = ([StoreAccess.entity_fetch], .error TransError.custom_iteration) :=
  ⟨rfl, by decide, rfl⟩

/-- C3 amended: in translate mode with an iteration mode that bypasses
per-entity object construction, evaluation fails with the custom-iteration
error (the `TypeError` of querysets.py line 50, the spec taxonomy's
`UnsupportedOperationError`), and the failure is surfaced before any overlay
store access: the trace contains no overlay read, for every overlay reader. -/
theorem fetch_all_custom_iteration_before_overlay_access {π ε : Type}
    (db : List ε)
    (context_read : List (Option String) → String → List ε → List ε)
    (qs : TranslatableQuerySet π ε)
    (hmode : qs.translate_mode = true)
    (hiter : qs.iterable_class ≠ IterableClass.model_iterable) :
    (TranslatableQuerySet.fetch_all db context_read qs).2
        = .error TransError.custom_iteration ∧
    StoreAccess.overlay_read ∉
      (TranslatableQuerySet.fetch_all db context_read qs).1 := by
  have hl : qs.trans_lang.isSome = true ∧ qs.trans_cipher = true := by
    simpa [TranslatableQuerySet.translate_mode] using hmode
  cases hrc : qs.result_cache <;>
    simp [TranslatableQuerySet.fetch_all, TranslatableQuerySet.super_fetch_all,
      hrc, TranslatableQuerySet.read_translations,
      TranslatableQuerySet.translate_mode, hl.1, hl.2, hiter]

/-- Witness for the amended C3 at a concrete values-mode queryset. -/
theorem fetch_all_custom_iteration_before_overlay_access_witness :
    values_qs.translate_mode = true ∧
    values_qs.iterable_class ≠ IterableClass.model_iterable ∧
    ((TranslatableQuerySet.fetch_all [7] read_incr values_qs).2
        = .error TransError.custom_iteration ∧
      StoreAccess.overlay_read ∉
        (TranslatableQuerySet.fetch_all [7] read_incr values_qs).1) :=
  ⟨rfl, by decide,
    fetch_all_custom_iteration_before_overlay_access [7] read_incr values_qs
      rfl (by decide)⟩

lemma read_translations_ok_idem {π ε : Type}
    (context_read : List (Option String) → String → List ε → List ε)
    (q q' : TranslatableQuerySet π ε) (t : List StoreAccess)
    (h : TranslatableQuerySet.read_translations context_read q = (t, .ok q')) :
    TranslatableQuerySet.read_translations context_read q' = ([], .ok q') ∧
    q'.result_cache.isSome = q.result_cache.isSome := by
  unfold TranslatableQuerySet.read_translations at h
  split at h
  case isTrue hm =>
    split at h
    case isTrue hic =>
      split at h
      case isTrue hc =>
        injection h with ht hq
        injection hq with hq
        subst hq
        refine ⟨?_, rfl⟩
        simp [TranslatableQuerySet.read_translations, hm, hic, hc]
      case isFalse hc =>
        split at h
        case h_1 l heq =>
          injection h with ht hq
          injection hq with hq
          subst hq
          have hcip : q.trans_cipher = true := by
            have := hm
            simp [TranslatableQuerySet.translate_mode] at this
            exact this.2
          constructor
          · simp [TranslatableQuerySet.read_translations,
              TranslatableQuerySet.translate_mode, heq, hcip, hic]
          · cases hrc : q.result_cache <;> simp [hrc]
        case h_2 heq =>
          rw [TranslatableQuerySet.translate_mode, heq] at hm
          simp at hm
    case isFalse hic =>
      injection h with ht hq
      exact Except.noConfusion hq
  case isFalse hm =>
    injection h with ht hq
    injection hq with hq
    subst hq
    refine ⟨?_, rfl⟩
    simp [TranslatableQuerySet.read_translations, hm]

/-- C4: evaluating a translated queryset a second time yields exactly the
state of the first evaluation and performs no further store access at all (in
particular, the overlay reader is not re-run on the already-translated
cache), for every entity store content and every overlay reader. -/
theorem fetch_all_idempotent {π ε : Type} (db : List ε)
    (context_read : List (Option String) → String → List ε → List ε)
    (qs qs' : TranslatableQuerySet π ε) (tr : List StoreAccess)
    (h : TranslatableQuerySet.fetch_all db context_read qs = (tr, .ok qs')) :
    TranslatableQuerySet.fetch_all db context_read qs' = ([], .ok qs') := by
  have hr2 : (TranslatableQuerySet.read_translations context_read
      (TranslatableQuerySet.super_fetch_all db qs).2).2 = .ok qs' :=
    congrArg Prod.snd h
  obtain ⟨hidem, hpres⟩ :=
    read_translations_ok_idem context_read
      (TranslatableQuerySet.super_fetch_all db qs).2 qs'
      (TranslatableQuerySet.read_translations context_read
        (TranslatableQuerySet.super_fetch_all db qs).2).1
      (Prod.ext_iff.mpr ⟨rfl, hr2⟩)
  have hsome : (TranslatableQuerySet.super_fetch_all db qs).2.result_cache.isSome
      = true := by
    cases hrc : qs.result_cache <;>
      simp [TranslatableQuerySet.super_fetch_all, hrc]
  have hsome' : qs'.result_cache.isSome = true := by
    rw [hpres]
    exact hsome
  obtain ⟨xs, hxs⟩ := Option.isSome_iff_exists.mp hsome'
  have hsuper : TranslatableQuerySet.super_fetch_all db qs' = ([], qs') := by
    simp [TranslatableQuerySet.super_fetch_all, hxs]
  simp [TranslatableQuerySet.fetch_all, hsuper, hidem]

/-- Witness for C4: a concrete translated evaluation followed by a second
evaluation that changes nothing and touches no store. -/
theorem fetch_all_idempotent_witness :
    TranslatableQuerySet.fetch_all [7] read_incr applied_qs
      = ([StoreAccess.entity_fetch, StoreAccess.overlay_read], .ok translated_qs) ∧
    TranslatableQuerySet.fetch_all [7] read_incr translated_qs
      = ([], .ok translated_qs) :=
  ⟨rfl,
    fetch_all_idempotent [7] read_incr applied_qs translated_qs
      [StoreAccess.entity_fetch, StoreAccess.overlay_read] rfl⟩

end Translations
